import Mathlib

/-!
Verification of the HealthAssistant MCP server (`src/main.py`).

The program is glue code over HTTP JSON APIs.  We shallowly embed it:

* JSON values (`JVal`) model Python values that flow through the tools.
* Each upstream HTTP collaborator is an oracle (`Upstream`): a call outcome
  is either a transport exception (`Except.error msg`) or an `HttpResponse`
  carrying a status code, raw text and a (possibly unparsable) JSON body.
* Python exceptions are modelled with `Except String`: `.error msg` is an
  exception in flight, a `try/except` block is a `match` on the body's
  `Except` value.  A tool whose body is entirely wrapped in `try/except`
  (get_location, get_weather) is total; `get_air_quality` has code outside
  every `try` block, so its embedding returns `Except String JVal`, where
  `.error` means an exception propagated out of the tool.
* Every tool also returns the list of upstream calls it attempted, in
  order, so that claims about which endpoints were (not) contacted are
  statable.
-/

/-- JSON values, doubling as the Python values the tools pass around. -/
inductive JVal where
  | null : JVal
  | bool : Bool → JVal
  | num : Int → JVal
  | str : String → JVal
  | list : List JVal → JVal
  | obj : List (String × JVal) → JVal

/-- Python truthiness (`if x:`) for the JSON values that occur here. -/
def truthy : JVal → Bool
  | .null => false
  | .bool b => b
  | .num n => n != 0
  | .str s => s ≠ ""
  | .list xs => !xs.isEmpty
  | .obj fs => !fs.isEmpty

/-- First-match association lookup, the embedding of Python dict lookup. -/
def jlookup : List (String × JVal) → String → Option JVal
  | [], _ => none
  | p :: ps, k => if p.1 = k then some p.2 else jlookup ps k

/-- Python `d.get(k, default)`: only dicts have `.get`; on anything else an
`AttributeError` is raised. -/
def pyGet (v : JVal) (k : String) (d : JVal) : Except String JVal :=
  match v with
  | .obj fs => .ok ((jlookup fs k).getD d)
  | _ => .error "AttributeError: object has no attribute get"

/-- Python `d[k]` for a string key: `KeyError` when absent, `TypeError` on
non-dict values. -/
def pySubscriptStr (v : JVal) (k : String) : Except String JVal :=
  match v with
  | .obj fs =>
    match jlookup fs k with
    | some x => .ok x
    | none => .error ("KeyError: " ++ k)
  | _ => .error ("TypeError: value is not subscriptable by " ++ k)

/-- Python `xs[0]`. -/
def pyIndexZero (v : JVal) : Except String JVal :=
  match v with
  | .list [] => .error "IndexError: list index out of range"
  | .list (x :: _) => .ok x
  | .str s =>
    match s.data with
    | [] => .error "IndexError: string index out of range"
    | c :: _ => .ok (.str (String.mk [c]))
  | _ => .error "TypeError: value is not subscriptable by 0"

/-- Whether `needle` occurs at the head of `hay`. -/
def leadsWith : List Char → List Char → Bool
  | [], _ => true
  | _ :: _, [] => false
  | a :: as, b :: bs => a = b && leadsWith as bs

/-- Whether `needle` occurs anywhere in `hay` (Python substring test). -/
def hasSub (needle : List Char) : List Char → Bool
  | [] => leadsWith needle []
  | b :: bs => leadsWith needle (b :: bs) || hasSub needle bs

/-- Python `k in v` for a string `k`. -/
def pyContains (k : String) (v : JVal) : Except String Bool :=
  match v with
  | .obj fs => .ok (fs.any (fun p => p.1 = k))
  | .list xs => .ok (xs.any (fun x => match x with | .str s => s = k | _ => false))
  | .str s => .ok (hasSub k.data s.data)
  | _ => .error "TypeError: argument of type is not iterable"

/-- Python `for x in v`: lists yield elements, strings their characters,
dicts their keys; anything else raises `TypeError`. -/
def pyIter (v : JVal) : Except String (List JVal) :=
  match v with
  | .list xs => .ok xs
  | .str s => .ok (s.data.map (fun c => .str (String.mk [c])))
  | .obj fs => .ok (fs.map (fun p => JVal.str p.1))
  | _ => .error "TypeError: object is not iterable"

/-- Python `d.items()`: only dicts have it. -/
def pyItems (v : JVal) : Except String (List (String × JVal)) :=
  match v with
  | .obj fs => .ok fs
  | _ => .error "AttributeError: object has no attribute items"

mutual
/-- Python `repr` of a JSON value, used for elements inside `str(list)` and
`str(dict)` renderings. -/
def pyRepr : JVal → String
  | .null => "None"
  | .bool true => "True"
  | .bool false => "False"
  | .num n => toString n
  | .str s => "'" ++ s ++ "'"
  | .list xs => "[" ++ String.intercalate ", " (pyReprList xs) ++ "]"
  | .obj fs => "\x7b" ++ String.intercalate ", " (pyReprObj fs) ++ "\x7d"

def pyReprList : List JVal → List String
  | [] => []
  | x :: xs => pyRepr x :: pyReprList xs

def pyReprObj : List (String × JVal) → List String
  | [] => []
  | p :: ps => ("'" ++ p.1 ++ "': " ++ pyRepr p.2) :: pyReprObj ps
end

/-- Python `str()` as used by f-string interpolation. -/
def pyStr : JVal → String
  | .str s => s
  | v => pyRepr v

/-- The `{"error": msg}` objects every tool returns on a caught failure. -/
def errObj (msg : String) : JVal := .obj [("error", .str msg)]

/-- Effectful map in `Except`, the embedding of a Python list comprehension
over a fallible body (left to right, first exception aborts). -/
def exceptMapM (f : JVal → Except String JVal) : List JVal → Except String (List JVal)
  | [] => .ok []
  | x :: xs => do
    let y ← f x
    let ys ← exceptMapM f xs
    return y :: ys

/-- Python `v[-1]` guarded by `isinstance(v, list) and v`: the last element when
`v` is a non-empty list, `none` otherwise. -/
def lastItem : JVal → Option JVal
  | .list vs => vs.getLast?
  | _ => none

/-- The dict comprehension of the modeled-data fallback:
`\x7bk: v[-1] for k, v in hourly.items() if isinstance(v, list) and v\x7d`. -/
def latestOf : List (String × JVal) → List (String × JVal)
  | [] => []
  | (k, v) :: rest =>
    match lastItem v with
    | some x => (k, x) :: latestOf rest
    | none => latestOf rest

/-- An upstream HTTP response: status code, raw text, and the outcome of
parsing its body as JSON (`.json()` may itself raise). -/
structure HttpResponse where
  status : Nat
  text : String
  json : Except String JVal

/-- The `requests` library raises for 4xx/5xx statuses under `raise_for_status()`. -/
def raiseForStatus (r : HttpResponse) : Except String HttpResponse :=
  if 400 ≤ r.status then .error ("HTTPError: " ++ toString r.status) else .ok r

/-- The five upstream collaborators, as oracles from the request parameters
to a transport outcome, plus the `json.loads` decoder used by the
summarizer's compatibility shim. -/
structure Upstream where
  ipapi : Except String HttpResponse
  weather : JVal → JVal → Except String HttpResponse
  geocode : String → Except String HttpResponse
  openaq : JVal → JVal → Except String HttpResponse
  modeled : JVal → JVal → Except String HttpResponse
  jsonLoads : String → Option JVal

/-- One attempted upstream HTTP call, recorded in order of attempt. -/
inductive Call where
  | ipapi : Call
  | weather (lat lon : JVal) : Call
  | geocode (city : String) : Call
  | openaq (lat lon : JVal) : Call
  | modeled (lat lon : JVal) : Call

/-- Python `os.getenv` gives `None` when unset; Python `if not api_key` also treats
the empty string as missing. -/
def keyMissing : Option String → Bool
  | none => true
  | some s => s = ""

/-- The `try` body of `get_location()` (lines 18-27). -/
def get_location_try (U : Upstream) : Except String JVal := do
  let r ← U.ipapi
  if r.status ≠ 200 then
    return .obj [("error", .str ("HTTP " ++ toString r.status)), ("text", .str r.text)]
  let data ← r.json
  let c ← pyGet data "city" (.str "Unknown")
  let la ← pyGet data "latitude" (.num 0)
  let lo ← pyGet data "longitude" (.num 0)
  return .obj [("city", c), ("lat", la), ("lon", lo)]

/-- Tool `get_location()`: IP geolocation, entire body inside `try/except`. -/
def get_location (U : Upstream) : JVal × List Call :=
  match get_location_try U with
  | .ok v => (v, [Call.ipapi])
  | .error e => (errObj e, [Call.ipapi])

/-- The `try` body of `get_weather(lat, lon)` (lines 36-50); note the
response's status is never checked, only `.json()`. -/
def get_weather_try (U : Upstream) (lat lon : JVal) : Except String JVal := do
  let r ← U.weather lat lon
  let data ← r.json
  let current ← pyGet data "current" (.obj [])
  if truthy current = false then
    return .obj [("error", .str "No weather data returned"), ("raw", data)]
  let t ← pyGet current "temperature_2m" (.str "N/A")
  let h ← pyGet current "relative_humidity_2m" (.str "N/A")
  let w ← pyGet current "wind_speed_10m" (.str "N/A")
  return .obj [("temperature", t), ("humidity", h), ("wind_speed", w)]

/-- Tool `get_weather(lat, lon)`: Open-Meteo forecast, entire body inside
`try/except`. -/
def get_weather (U : Upstream) (lat lon : JVal) : JVal × List Call :=
  match get_weather_try U lat lon with
  | .ok v => (v, [Call.weather lat lon])
  | .error e => (errObj e, [Call.weather lat lon])

/-- The `try` body of `get_air_quality`'s geocoding step (lines 71-79):
`.ok none` is the early `return` for a missing or falsy `results` field,
`.ok (some (lat, lon))` the successful extraction, `.error` an exception. -/
def geocodeTry (U : Upstream) (city : String) : Except String (Option (JVal × JVal)) := do
  let r ← U.geocode city
  let r2 ← raiseForStatus r
  let gd ← r2.json
  let hasRes ← pyContains "results" gd
  if hasRes = false then
    return none
  let res ← pySubscriptStr gd "results"
  if truthy res = false then
    return none
  let r0 ← pyIndexZero res
  let la ← pySubscriptStr r0 "latitude"
  let lo ← pySubscriptStr r0 "longitude"
  return some (la, lo)

/-- Step 1 of `get_air_quality` with its `except` clause: either an error
object to return, or the resolved coordinates. -/
def geocodeStep (U : Upstream) (city : String) : JVal ⊕ (JVal × JVal) :=
  match geocodeTry U city with
  | .error e => .inl (errObj ("Geocoding failed for " ++ city ++ ": " ++ e))
  | .ok none => .inl (errObj ("Could not geocode city '" ++ city ++ "'"))
  | .ok (some p) => .inr p

/-- Step 2 of `get_air_quality`: the `try` body of the OpenAQ station
search (request, `raise_for_status`, `.json()`). -/
def openaqStep (U : Upstream) (lat lon : JVal) : Except String JVal := do
  let r ← U.openaq lat lon
  let r2 ← raiseForStatus r
  r2.json

/-- One station record of step 3 (lines 97-103).  Runs OUTSIDE any
`try/except`: every `.error` propagates out of `get_air_quality`. -/
def stationRecord (st : JVal) : Except String JVal := do
  let n ← pyGet st "name" .null
  let c ← pyGet st "city" .null
  let co ← pyGet st "country" .null
  let crd ← pyGet st "coordinates" .null
  let ps ← pyGet st "parameters" (.list [])
  let items ← pyIter ps
  let params ← exceptMapM (fun p => pyGet p "parameter" .null) items
  return .obj [("name", n), ("city", c), ("country", co), ("coordinates", crd),
               ("parameters", .list params)]

/-- The station-found branch of step 3 (lines 94-109), also outside any
`try/except`. -/
def stationBranch (aq_data : JVal) (city : String) : Except String JVal := do
  let rs ← pySubscriptStr aq_data "results"
  let sts ← pyIter rs
  let stations ← exceptMapM stationRecord sts
  return .obj [("requested_city", .str city), ("source", .str "OpenAQ Station Data"),
               ("stations_found", .num stations.length), ("stations", .list stations)]

/-- Lines 94-109 as a whole: `aq_data.get("results")` (fallible, uncaught),
then either the station branch (`some v`) or fall through (`none`). -/
def stationCheck (aq_data : JVal) (city : String) : Except String (Option JVal) := do
  let resultsV ← pyGet aq_data "results" .null
  if truthy resultsV then
    let v ← stationBranch aq_data city
    return some v
  else
    return none

/-- The `try` body of step 4, the Open-Meteo modeled-data fallback
(lines 112-131). -/
def fallbackTry (U : Upstream) (lat lon : JVal) (city : String) : Except String JVal := do
  let r ← U.modeled lat lon
  let r2 ← raiseForStatus r
  let model_data ← r2.json
  let hourly ← pyGet model_data "hourly" (.obj [])
  if truthy hourly = false then
    return errObj ("No air quality data available for " ++ city)
  let items ← pyItems hourly
  return .obj [("requested_city", .str city), ("source", .str "Open-Meteo Modeled Data"),
               ("coordinates", .obj [("latitude", lat), ("longitude", lon)]),
               ("measurements", .obj (latestOf items))]

/-- Step 4 with its `except` clause: exceptions become an error object. -/
def fallbackStep (U : Upstream) (lat lon : JVal) (city : String) : JVal :=
  match fallbackTry U lat lon city with
  | .error e => errObj ("Fallback (Open-Meteo) failed: " ++ e)
  | .ok v => v

/-- Tool `get_air_quality(city)` (lines 57-134).  `.error` in the first component
means an exception escaped the tool (possible only in step 3, whose code is
not inside any `try`); `.ok v` is the Python return value.  The second
component lists the upstream calls attempted. -/
def get_air_quality (U : Upstream) (apiKey : Option String) (city : String) :
    Except String JVal × List Call :=
  if keyMissing apiKey then
    (.ok (errObj "Missing OpenAQ API key. Please set OPENAQ_API_KEY in .env"), [])
  else
    match geocodeStep U city with
    | .inl v => (.ok v, [Call.geocode city])
    | .inr (lat, lon) =>
      match openaqStep U lat lon with
      | .error e => (.ok (errObj ("OpenAQ location request failed: " ++ e)),
                     [Call.geocode city, Call.openaq lat lon])
      | .ok aq_data =>
        match stationCheck aq_data city with
        | .error e => (.error e, [Call.geocode city, Call.openaq lat lon])
        | .ok (some v) => (.ok v, [Call.geocode city, Call.openaq lat lon])
        | .ok none =>
          (.ok (fallbackStep U lat lon city),
           [Call.geocode city, Call.openaq lat lon, Call.modeled lat lon])

/-- The fixed summary template of lines 151-156 (f-string, `str()` on each
interpolated value). -/
def mkSummary (city : String) (tv wv av : JVal) : String :=
  "📍 City: " ++ city ++ "\n" ++
  "🌡️ Temp: " ++ pyStr tv ++ "°C\n" ++
  "💨 Wind: " ++ pyStr wv ++ " km/h\n" ++
  "🫁 Air Quality: " ++ pyStr av

/-- Tool `summarize_environment(city)` (lines 139-157).  No `try/except` at this
level: an exception from `get_air_quality` (or from a `.get` on a non-dict
sub-result) propagates, shown as `.error`. -/
def summarize_environment (U : Upstream) (apiKey : Option String) (city : String) :
    Except String JVal × List Call :=
  let locPair := get_location U
  let loc0 := locPair.1
  let loc : JVal :=
    match loc0 with
    | .str s =>
      match U.jsonLoads s with
      | some v => v
      | none => .obj [("lat", .num 0), ("lon", .num 0)]
    | v => v
  match pyGet loc "lat" (.num 0) with
  | .error e => (.error e, locPair.2)
  | .ok la =>
    match pyGet loc "lon" (.num 0) with
    | .error e => (.error e, locPair.2)
    | .ok lo =>
      let weatherPair := get_weather U la lo
      let airPair := get_air_quality U apiKey city
      let trace := locPair.2 ++ weatherPair.2 ++ airPair.2
      match airPair.1 with
      | .error e => (.error e, trace)
      | .ok air =>
        match pyGet weatherPair.1 "temperature" (.str "N/A") with
        | .error e => (.error e, trace)
        | .ok tv =>
          match pyGet weatherPair.1 "wind_speed" (.str "N/A") with
          | .error e => (.error e, trace)
          | .ok wv =>
            match pyGet air "nearest_city" (.str "N/A") with
            | .error e => (.error e, trace)
            | .ok av =>
              (.ok (.obj [("summary", .str (mkSummary city tv wv av))]), trace)

/-! ## Shape lemmas -/

theorem get_location_try_obj (U : Upstream) (v : JVal)
    (h : get_location_try U = .ok v) : ∃ fs, v = .obj fs := by
  unfold get_location_try at h
  cases hip : U.ipapi with
  | error e => simp [hip, Bind.bind, Except.bind] at h
  | ok r =>
    simp only [hip, Bind.bind, Except.bind] at h
    split at h
    · exact ⟨_, (Except.ok.inj h).symm⟩
    · cases hj : r.json with
      | error e => simp [hj, Except.bind, pure, Except.pure] at h
      | ok data =>
        simp only [hj] at h
        cases data <;> simp [pyGet, Except.bind, pure, Except.pure] at h
        exact ⟨_, h.symm⟩

theorem get_location_obj (U : Upstream) : ∃ fs, (get_location U).1 = .obj fs := by
  unfold get_location
  cases hb : get_location_try U with
  | error e => exact ⟨_, rfl⟩
  | ok v =>
    obtain ⟨fs, rfl⟩ := get_location_try_obj U v hb
    exact ⟨fs, rfl⟩

theorem get_location_trace (U : Upstream) : (get_location U).2 = [Call.ipapi] := by
  unfold get_location
  cases get_location_try U <;> rfl

theorem get_weather_try_obj (U : Upstream) (lat lon v : JVal)
    (h : get_weather_try U lat lon = .ok v) : ∃ fs, v = .obj fs := by
  unfold get_weather_try at h
  cases hip : U.weather lat lon with
  | error e => simp [hip, Bind.bind, Except.bind] at h
  | ok r =>
    simp only [hip, Bind.bind, Except.bind] at h
    cases hj : r.json with
    | error e => simp [hj] at h
    | ok data =>
      simp only [hj] at h
      cases data with
      | obj fs =>
        simp only [pyGet, Except.bind, pure, Except.pure] at h
        split at h
        · exact ⟨_, (Except.ok.inj h).symm⟩
        · cases hc : (jlookup fs "current").getD (.obj []) <;>
            simp [hc, pyGet, Except.bind, pure, Except.pure] at h
          exact ⟨_, h.symm⟩
      | null => simp [pyGet, Except.bind] at h
      | bool b => simp [pyGet, Except.bind] at h
      | num n => simp [pyGet, Except.bind] at h
      | str s => simp [pyGet, Except.bind] at h
      | list l => simp [pyGet, Except.bind] at h

theorem get_weather_obj (U : Upstream) (lat lon : JVal) :
    ∃ fs, (get_weather U lat lon).1 = .obj fs := by
  unfold get_weather
  cases hb : get_weather_try U lat lon with
  | error e => exact ⟨_, rfl⟩
  | ok v =>
    obtain ⟨fs, rfl⟩ := get_weather_try_obj U lat lon v hb
    exact ⟨fs, rfl⟩

theorem get_weather_trace (U : Upstream) (lat lon : JVal) :
    (get_weather U lat lon).2 = [Call.weather lat lon] := by
  unfold get_weather
  cases get_weather_try U lat lon <;> rfl

theorem geocodeStep_inl (U : Upstream) (city : String) (v : JVal)
    (h : geocodeStep U city = .inl v) :
    (∃ e, v = errObj ("Geocoding failed for " ++ city ++ ": " ++ e)) ∨
      v = errObj ("Could not geocode city '" ++ city ++ "'") := by
  unfold geocodeStep at h
  cases hg : geocodeTry U city with
  | error e =>
    rw [hg] at h
    exact .inl ⟨e, (Sum.inl.inj h).symm⟩
  | ok o =>
    cases o with
    | none =>
      rw [hg] at h
      exact .inr (Sum.inl.inj h).symm
    | some p => rw [hg] at h; cases h

theorem stationBranch_ok (aq_data : JVal) (city : String) (v : JVal)
    (h : stationBranch aq_data city = .ok v) :
    ∃ sts, v = .obj [("requested_city", .str city), ("source", .str "OpenAQ Station Data"),
      ("stations_found", .num sts.length), ("stations", .list sts)] := by
  unfold stationBranch at h
  cases h1 : pySubscriptStr aq_data "results" with
  | error e => simp [h1, Bind.bind, Except.bind] at h
  | ok rs =>
    simp only [h1, Bind.bind, Except.bind] at h
    cases h2 : pyIter rs with
    | error e => simp [h2] at h
    | ok sts =>
      simp only [h2] at h
      cases h3 : exceptMapM stationRecord sts with
      | error e => simp [h3] at h
      | ok stations =>
        simp only [h3, pure, Except.pure] at h
        exact ⟨stations, (Except.ok.inj h).symm⟩

theorem fallbackTry_ok (U : Upstream) (lat lon : JVal) (city : String) (v : JVal)
    (h : fallbackTry U lat lon city = .ok v) :
    v = errObj ("No air quality data available for " ++ city) ∨
      ∃ items, v = .obj [("requested_city", .str city), ("source", .str "Open-Meteo Modeled Data"),
        ("coordinates", .obj [("latitude", lat), ("longitude", lon)]),
        ("measurements", .obj (latestOf items))] := by
  unfold fallbackTry at h
  cases h1 : U.modeled lat lon with
  | error e => simp [h1, Bind.bind, Except.bind] at h
  | ok r =>
    simp only [h1, Bind.bind, Except.bind] at h
    cases h2 : raiseForStatus r with
    | error e => simp [h2] at h
    | ok r2 =>
      simp only [h2] at h
      cases h3 : r2.json with
      | error e => simp [h3] at h
      | ok model_data =>
        simp only [h3] at h
        cases h4 : pyGet model_data "hourly" (.obj []) with
        | error e => simp [h4] at h
        | ok hourly =>
          simp only [h4] at h
          split at h
          · exact .inl (Except.ok.inj h).symm
          · cases h5 : pyItems hourly with
            | error e => simp [h5, pure, Except.pure] at h
            | ok items =>
              simp only [h5, pure, Except.pure] at h
              exact .inr ⟨items, (Except.ok.inj h).symm⟩

theorem fallbackStep_shape (U : Upstream) (lat lon : JVal) (city : String) :
    ∃ fs, fallbackStep U lat lon city = .obj fs ∧ jlookup fs "nearest_city" = none := by
  unfold fallbackStep
  cases hb : fallbackTry U lat lon city with
  | error e => exact ⟨_, rfl, by simp [jlookup]⟩
  | ok v =>
    rcases fallbackTry_ok U lat lon city v hb with h | ⟨items, h⟩ <;> subst h
    · exact ⟨_, rfl, by simp [jlookup]⟩
    · exact ⟨_, rfl, by simp [jlookup]⟩

/-- Every value `get_air_quality` RETURNS (as opposed to an exception it
lets escape) is a dict, and none of the branches ever emits a
`nearest_city` key. -/
theorem get_air_quality_no_nearest_city (U : Upstream) (apiKey : Option String)
    (city : String) (v : JVal) (h : (get_air_quality U apiKey city).1 = .ok v) :
    ∃ fs, v = .obj fs ∧ jlookup fs "nearest_city" = none := by
  unfold get_air_quality at h
  split at h
  · exact ⟨_, (Except.ok.inj h).symm, by simp [jlookup]⟩
  · cases hgeo : geocodeStep U city with
    | inl w =>
      rw [hgeo] at h
      rcases geocodeStep_inl U city w hgeo with ⟨e, rfl⟩ | rfl <;>
        exact ⟨_, (Except.ok.inj h).symm, by simp [jlookup]⟩
    | inr p =>
      obtain ⟨lat, lon⟩ := p
      rw [hgeo] at h
      dsimp only at h
      cases haq : openaqStep U lat lon with
      | error e =>
        rw [haq] at h
        exact ⟨_, (Except.ok.inj h).symm, by simp [jlookup]⟩
      | ok aq_data =>
        rw [haq] at h
        dsimp only at h
        cases hst : stationCheck aq_data city with
        | error e => rw [hst] at h; cases h
        | ok o =>
          rw [hst] at h
          cases o with
          | some w =>
            dsimp only at h
            have hw : stationBranch aq_data city = .ok w := by
              unfold stationCheck at hst
              cases h1 : pyGet aq_data "results" .null with
              | error e => simp [h1, Bind.bind, Except.bind] at hst
              | ok rv =>
                simp only [h1, Bind.bind, Except.bind] at hst
                split at hst
                · cases h2 : stationBranch aq_data city with
                  | error e => simp [h2, pure, Except.pure] at hst
                  | ok w2 =>
                    simp only [h2, pure, Except.pure] at hst
                    have hw2 : w2 = w := by simpa using hst
                    exact congrArg Except.ok hw2
                · simp [pure, Except.pure] at hst
            obtain ⟨sts, rfl⟩ := stationBranch_ok aq_data city w hw
            exact ⟨_, (Except.ok.inj h).symm, by simp [jlookup]⟩
          | none =>
            dsimp only at h
            obtain ⟨fs, hfs, hnn⟩ := fallbackStep_shape U lat lon city
            refine ⟨fs, ?_, hnn⟩
            rw [← hfs]
            exact (Except.ok.inj h).symm


/-! ## Lemmas about the fallback's dict comprehension -/

theorem jlookup_cons (a : String) (v : JVal) (rest : List (String × JVal)) (k : String) :
    jlookup ((a, v) :: rest) k = if a = k then some v else jlookup rest k := rfl

theorem latestOf_cons (a : String) (v : JVal) (rest : List (String × JVal)) :
    latestOf ((a, v) :: rest) =
      match lastItem v with
      | some x => (a, x) :: latestOf rest
      | none => latestOf rest := rfl

theorem jlookup_none_of_not_mem (fs : List (String × JVal)) (k : String)
    (h : k ∉ fs.map Prod.fst) : jlookup fs k = none := by
  induction fs with
  | nil => rfl
  | cons p rest ih =>
    obtain ⟨a, v⟩ := p
    simp only [List.map_cons, List.mem_cons, not_or] at h
    rw [jlookup_cons, if_neg (fun he => h.1 he.symm)]
    exact ih h.2

theorem latestOf_not_mem (fs : List (String × JVal)) (k : String)
    (h : k ∉ fs.map Prod.fst) : k ∉ (latestOf fs).map Prod.fst := by
  induction fs with
  | nil => simp [latestOf]
  | cons p rest ih =>
    obtain ⟨a, v⟩ := p
    simp only [List.map_cons, List.mem_cons, not_or] at h
    rw [latestOf_cons]
    cases hli : lastItem v with
    | some x =>
      simp only [List.map_cons, List.mem_cons, not_or]
      exact ⟨fun he => h.1 he, ih h.2⟩
    | none => exact ih h.2

/-- The kept series: a key bound to a non-empty list in `hourly` appears in
the comprehension's result bound to the list's last element. -/
theorem latestOf_lookup_list (fs : List (String × JVal)) (k : String) (vs : List JVal)
    (hl : jlookup fs k = some (.list vs)) (hne : vs ≠ []) :
    jlookup (latestOf fs) k = some (vs.getLast hne) := by
  induction fs with
  | nil => cases hl
  | cons p rest ih =>
    obtain ⟨a, v⟩ := p
    rw [jlookup_cons] at hl
    rw [latestOf_cons]
    by_cases hak : a = k
    · rw [if_pos hak] at hl
      have hv : v = .list vs := Option.some.inj hl
      subst hv
      have hli : lastItem (JVal.list vs) = some (vs.getLast hne) := by
        simp [lastItem, List.getLast?_eq_getLast vs hne]
      rw [hli]
      rw [jlookup_cons, if_pos hak]
    · rw [if_neg hak] at hl
      cases hli : lastItem v with
      | some x =>
        rw [jlookup_cons, if_neg hak]
        exact ih hl
      | none => exact ih hl

/-- The skipped series: with the keys of `hourly` distinct (as in any
parsed JSON object), a key bound to an empty list or to a non-list value
does not appear in the comprehension's result at all. -/
theorem latestOf_lookup_skip (fs : List (String × JVal)) (k : String) (v : JVal)
    (hnd : (fs.map Prod.fst).Nodup) (hl : jlookup fs k = some v)
    (hv : lastItem v = none) : jlookup (latestOf fs) k = none := by
  induction fs with
  | nil => cases hl
  | cons p rest ih =>
    obtain ⟨a, w⟩ := p
    simp only [List.map_cons, List.nodup_cons] at hnd
    rw [jlookup_cons] at hl
    rw [latestOf_cons]
    by_cases hak : a = k
    · rw [if_pos hak] at hl
      have hw : w = v := Option.some.inj hl
      subst hw
      rw [hv]
      subst hak
      exact jlookup_none_of_not_mem _ _ (latestOf_not_mem rest a hnd.1)
    · rw [if_neg hak] at hl
      cases hli : lastItem w with
      | some x =>
        rw [jlookup_cons, if_neg hak]
        exact ih hnd.2 hl
      | none => exact ih hnd.2 hl

/-- Completeness of the comprehension: everything in its result is the last
element of a non-empty list-valued series of `hourly`. -/
theorem latestOf_lookup_src (fs : List (String × JVal)) (k : String) (x : JVal)
    (hnd : (fs.map Prod.fst).Nodup) (hl : jlookup (latestOf fs) k = some x) :
    ∃ vs, ∃ hne : vs ≠ [], jlookup fs k = some (.list vs) ∧ x = vs.getLast hne := by
  induction fs with
  | nil => cases hl
  | cons p rest ih =>
    obtain ⟨a, w⟩ := p
    simp only [List.map_cons, List.nodup_cons] at hnd
    rw [latestOf_cons] at hl
    by_cases hak : a = k
    · subst hak
      cases hli : lastItem w with
      | some y =>
        rw [hli] at hl
        rw [jlookup_cons, if_pos rfl] at hl
        have hxy : y = x := Option.some.inj hl
        subst hxy
        cases w with
        | list ws =>
          have hne : ws ≠ [] := by
            intro he
            subst he
            simp [lastItem] at hli
          refine ⟨ws, hne, by rw [jlookup_cons, if_pos rfl], ?_⟩
          have : ws.getLast? = some y := hli
          rw [List.getLast?_eq_getLast ws hne] at this
          exact (Option.some.inj this).symm
        | null => simp [lastItem] at hli
        | bool b => simp [lastItem] at hli
        | num n => simp [lastItem] at hli
        | str s => simp [lastItem] at hli
        | obj o => simp [lastItem] at hli
      | none =>
        rw [hli] at hl
        rw [jlookup_none_of_not_mem _ _ (latestOf_not_mem rest a hnd.1)] at hl
        cases hl
    · cases hli : lastItem w with
      | some y =>
        rw [hli] at hl
        rw [jlookup_cons, if_neg hak] at hl
        obtain ⟨vs, hne, h1, h2⟩ := ih hnd.2 hl
        exact ⟨vs, hne, by rw [jlookup_cons, if_neg hak]; exact h1, h2⟩
      | none =>
        rw [hli] at hl
        obtain ⟨vs, hne, h1, h2⟩ := ih hnd.2 hl
        exact ⟨vs, hne, by rw [jlookup_cons, if_neg hak]; exact h1, h2⟩

/-! ## Station-branch lemmas -/

/-- The shape under which a station record of the OpenAQ payload is
processed without raising: a dict whose `parameters` entry (defaulting to
`[]`) is a list of dicts. -/
def stationWellFormed (st : JVal) : Bool :=
  match st with
  | .obj fs =>
    match (jlookup fs "parameters").getD (.list []) with
    | .list ps => ps.all (fun p => match p with | .obj _ => true | _ => false)
    | _ => false
  | _ => false

theorem paramsMapM_ok (ps : List JVal)
    (h : ∀ p ∈ ps, ∃ gs, p = JVal.obj gs) :
    ∃ ys, exceptMapM (fun p => pyGet p "parameter" .null) ps = .ok ys := by
  induction ps with
  | nil => exact ⟨[], rfl⟩
  | cons p rest ih =>
    obtain ⟨ys, hys⟩ := ih (fun q hq => h q (List.mem_cons_of_mem p hq))
    obtain ⟨gs, rfl⟩ := h p (List.mem_cons_self p rest)
    refine ⟨((jlookup gs "parameter").getD .null) :: ys, ?_⟩
    simp only [pyGet] at hys ⊢
    simp only [exceptMapM, Bind.bind, Except.bind, pure, Except.pure]
    rw [hys]

theorem stationRecord_ok (st : JVal) (h : stationWellFormed st = true) :
    ∃ gs, stationRecord st = .ok (.obj gs) ∧
      gs.map Prod.fst = ["name", "city", "country", "coordinates", "parameters"] := by
  cases st with
  | obj fs =>
    simp only [stationWellFormed] at h
    cases hps : (jlookup fs "parameters").getD (.list []) with
    | list ps =>
      rw [hps] at h
      have hobj : ∀ p ∈ ps, ∃ gs, p = JVal.obj gs := by
        intro p hp
        have := (List.all_eq_true.mp h) p hp
        cases p with
        | obj gs => exact ⟨gs, rfl⟩
        | null => cases this
        | bool b => cases this
        | num n => cases this
        | str s => cases this
        | list l => cases this
      obtain ⟨ys, hys⟩ := paramsMapM_ok ps hobj
      refine ⟨[("name", (jlookup fs "name").getD .null), ("city", (jlookup fs "city").getD .null),
        ("country", (jlookup fs "country").getD .null),
        ("coordinates", (jlookup fs "coordinates").getD .null),
        ("parameters", .list ys)], ?_, rfl⟩
      unfold stationRecord
      simp only [pyGet] at hys ⊢
      simp only [Bind.bind, Except.bind, pure, Except.pure, hps, pyIter]
      rw [hys]
    | null => rw [hps] at h; cases h
    | bool b => rw [hps] at h; cases h
    | num n => rw [hps] at h; cases h
    | str s => rw [hps] at h; cases h
    | obj o => rw [hps] at h; cases h
  | null => simp [stationWellFormed] at h
  | bool b => simp [stationWellFormed] at h
  | num n => simp [stationWellFormed] at h
  | str s => simp [stationWellFormed] at h
  | list l => simp [stationWellFormed] at h

theorem exceptMapM_stations (sts : List JVal)
    (h : ∀ st ∈ sts, stationWellFormed st = true) :
    ∃ l, exceptMapM stationRecord sts = .ok l ∧ l.length = sts.length ∧
      ∀ r ∈ l, ∃ gs, r = .obj gs ∧
        gs.map Prod.fst = ["name", "city", "country", "coordinates", "parameters"] := by
  induction sts with
  | nil => exact ⟨[], rfl, rfl, by intro r hr; cases hr⟩
  | cons st rest ih =>
    obtain ⟨gs, hst, hkeys⟩ := stationRecord_ok st (h st (List.mem_cons_self st rest))
    obtain ⟨l, hl, hlen, hshape⟩ := ih (fun q hq => h q (List.mem_cons_of_mem st hq))
    refine ⟨.obj gs :: l, ?_, by simp [hlen], ?_⟩
    · simp only [exceptMapM, Bind.bind, Except.bind, hst, hl, pure, Except.pure]
    · intro r hr
      rcases List.mem_cons.mp hr with rfl | hr2
      · exact ⟨gs, rfl, hkeys⟩
      · exact hshape r hr2

/-! ## Characterization of the summarizer -/

/-- Whenever `get_air_quality` returns (instead of raising), the summarizer
returns the filled template, with the weather sub-result taken at the
coordinates read (with default `0`) from the location sub-result. -/
theorem summarize_of_air_ok (U : Upstream) (apiKey : Option String) (city : String)
    (afs : List (String × JVal))
    (ha : (get_air_quality U apiKey city).1 = .ok (.obj afs)) :
    ∃ lfs wfs,
      (get_location U).1 = .obj lfs ∧
      (get_weather U ((jlookup lfs "lat").getD (.num 0)) ((jlookup lfs "lon").getD (.num 0))).1
        = .obj wfs ∧
      summarize_environment U apiKey city =
        (.ok (.obj [("summary", .str (mkSummary city
            ((jlookup wfs "temperature").getD (.str "N/A"))
            ((jlookup wfs "wind_speed").getD (.str "N/A"))
            ((jlookup afs "nearest_city").getD (.str "N/A"))))]),
         Call.ipapi ::
           Call.weather ((jlookup lfs "lat").getD (.num 0)) ((jlookup lfs "lon").getD (.num 0)) ::
           (get_air_quality U apiKey city).2) := by
  obtain ⟨lfs, hl⟩ := get_location_obj U
  obtain ⟨wfs, hw⟩ := get_weather_obj U ((jlookup lfs "lat").getD (JVal.num 0))
    ((jlookup lfs "lon").getD (JVal.num 0))
  refine ⟨lfs, wfs, hl, hw, ?_⟩
  have hloc : get_location U = (JVal.obj lfs, [Call.ipapi]) :=
    Prod.ext_iff.mpr ⟨hl, get_location_trace U⟩
  have hweather : get_weather U ((jlookup lfs "lat").getD (JVal.num 0))
      ((jlookup lfs "lon").getD (JVal.num 0))
      = (JVal.obj wfs, [Call.weather ((jlookup lfs "lat").getD (JVal.num 0))
          ((jlookup lfs "lon").getD (JVal.num 0))]) :=
    Prod.ext_iff.mpr ⟨hw, get_weather_trace U _ _⟩
  cases hq : get_air_quality U apiKey city with
  | mk ae tr =>
    rw [hq] at ha
    dsimp only at ha
    subst ha
    unfold summarize_environment
    rw [hloc, hq]
    dsimp only [pyGet]
    rw [hweather]
    dsimp only [pyGet]
    simp

/-- The template splits into everything before the air-quality marker and
the marker with its interpolated value. -/
theorem mkSummary_split (city : String) (tv wv av : JVal) :
    mkSummary city tv wv av =
      ("📍 City: " ++ city ++ "\n" ++ "🌡️ Temp: " ++ pyStr tv ++ "°C\n" ++ "💨 Wind: " ++
        pyStr wv ++ " km/h\n") ++ ("🫁 Air Quality: " ++ pyStr av) := by
  simp [mkSummary, String.append_assoc]
  rw [← String.append_assoc " km/h\n" "🫁 Air Quality: " (pyStr av)]
  rfl

/-! ## Concrete upstream fixtures -/

/-- A 200 response with the given JSON body. -/
def httpOk (v : JVal) : Except String HttpResponse := .ok ⟨200, "", .ok v⟩

/-- A geocoding payload resolving to latitude 31, longitude 74. -/
def geoBody : JVal :=
  .obj [("results", .list [.obj [("latitude", .num 31), ("longitude", .num 74)]])]

/-- A fixture: IP location and geocoding resolve, the forecast returns
`w`, the station search returns `aq` and the modeled endpoint `md`. -/
def mkU (w aq md : JVal) : Upstream :=
  ⟨httpOk (.obj [("city", .str "Lahore"), ("latitude", .num 31), ("longitude", .num 74)]),
   fun _ _ => httpOk w,
   fun _ => httpOk geoBody,
   fun _ _ => httpOk aq,
   fun _ _ => httpOk md,
   fun _ => none⟩

/-- A fully populated `current` section for the forecast endpoint. -/
def weatherBody : JVal :=
  .obj [("current", .obj [("temperature_2m", .num 30), ("relative_humidity_2m", .num 40),
    ("wind_speed_10m", .num 5)])]

/-- No stations nearby, modeled data available. -/
def Uc1 : Upstream := mkU weatherBody (.obj [("results", .list [])])
  (.obj [("hourly", .obj [("pm2_5", .list [.num 10, .num 12])])])

/-- The value `get_air_quality` returns under `Uc1`. -/
def c1air : JVal :=
  .obj [("requested_city", .str "Lahore"), ("source", .str "Open-Meteo Modeled Data"),
    ("coordinates", .obj [("latitude", .num 31), ("longitude", .num 74)]),
    ("measurements", .obj [("pm2_5", .num 12)])]

/-! ## The claims -/

/-- C1: every result `get_air_quality` returns (station branch, fallback
branch or error object) lacks the `nearest_city` key, so the Air Quality
field of the summary — read from that key with default "N/A" — always
renders as "N/A". -/
theorem C1_air_quality_field_always_NA (U : Upstream) (apiKey : Option String)
    (city : String) (air : JVal) (ha : (get_air_quality U apiKey city).1 = .ok air) :
    pyGet air "nearest_city" (.str "N/A") = .ok (.str "N/A") ∧
    ∃ s t, (summarize_environment U apiKey city).1 = .ok (.obj [("summary", .str s)]) ∧
      s = t ++ "🫁 Air Quality: N/A" := by
  obtain ⟨afs, rfl, hnn⟩ := get_air_quality_no_nearest_city U apiKey city air ha
  refine ⟨by simp [pyGet, hnn], ?_⟩
  obtain ⟨lfs, wfs, hl, hw, hs⟩ := summarize_of_air_ok U apiKey city afs ha
  refine ⟨mkSummary city ((jlookup wfs "temperature").getD (.str "N/A"))
      ((jlookup wfs "wind_speed").getD (.str "N/A"))
      ((jlookup afs "nearest_city").getD (.str "N/A")),
    "📍 City: " ++ city ++ "\n" ++ "🌡️ Temp: " ++
      pyStr ((jlookup wfs "temperature").getD (.str "N/A")) ++ "°C\n" ++ "💨 Wind: " ++
      pyStr ((jlookup wfs "wind_speed").getD (.str "N/A")) ++ " km/h\n",
    by rw [hs], ?_⟩
  rw [mkSummary_split, hnn]
  rfl

/-- Witness for C1: the fallback result under `Uc1` has no `nearest_city`
key and the summary ends in the defaulted Air Quality field. -/
theorem C1_air_quality_field_always_NA_witness :
    (get_air_quality Uc1 (some "key") "Lahore").1 = .ok c1air ∧
    (pyGet c1air "nearest_city" (.str "N/A") = .ok (.str "N/A") ∧
      ∃ s t, (summarize_environment Uc1 (some "key") "Lahore").1
          = .ok (.obj [("summary", .str s)]) ∧
        s = t ++ "🫁 Air Quality: N/A") :=
  ⟨rfl, C1_air_quality_field_always_NA Uc1 (some "key") "Lahore" c1air rfl⟩

/-- The OpenAQ station search answers 200 with a JSON array body. -/
def Uc2 : Upstream := mkU weatherBody (.list []) (.obj [])

/-- C2 (refuted — code bug): the claim says no exception escapes
`get_air_quality`, but lines 94-109 of `src/main.py` run outside every
`try` block.  When the station search returns a JSON array, the bare
`aq_data.get("results")` raises an `AttributeError` that propagates to the
caller. -/
theorem C2_station_branch_exception_escapes :
    get_air_quality Uc2 (some "key") "Lahore"
      = (.error "AttributeError: object has no attribute get",
         [Call.geocode "Lahore", Call.openaq (.num 31) (.num 74)]) := rfl

/-- C5: a missing (or empty) OPENAQ_API_KEY makes `get_air_quality` return
the configuration error with NO upstream call attempted; the summarizer
(and with it the other tools) still completes, the key being required
nowhere else. -/
theorem C5_missing_key_fails_fast (U : Upstream) (city : String) :
    get_air_quality U none city
        = (.ok (errObj "Missing OpenAQ API key. Please set OPENAQ_API_KEY in .env"), []) ∧
    get_air_quality U (some "") city
        = (.ok (errObj "Missing OpenAQ API key. Please set OPENAQ_API_KEY in .env"), []) ∧
    ∃ s, (summarize_environment U none city).1 = .ok (.obj [("summary", .str s)]) := by
  refine ⟨rfl, rfl, ?_⟩
  obtain ⟨lfs, wfs, hl, hw, hs⟩ := summarize_of_air_ok U none city
    [("error", .str "Missing OpenAQ API key. Please set OPENAQ_API_KEY in .env")] rfl
  exact ⟨_, by rw [hs]⟩

/-- C6: whenever the geocoding step fails — the request (or its status
check or JSON decoding) raises, or it yields no results — `get_air_quality`
returns an error object whose message embeds the city name, and neither the
station search nor the modeled endpoint is contacted. -/
theorem C6_geocode_failure_names_city (U : Upstream) (apiKey : Option String)
    (city : String) (hk : keyMissing apiKey = false)
    (hfail : (∃ e, geocodeTry U city = .error e) ∨ geocodeTry U city = .ok none) :
    ∃ pre suf, get_air_quality U apiKey city
      = (.ok (errObj (pre ++ city ++ suf)), [Call.geocode city]) := by
  unfold get_air_quality
  rw [hk]
  rcases hfail with ⟨e, he⟩ | he
  · refine ⟨"Geocoding failed for ", ": " ++ e, ?_⟩
    unfold geocodeStep
    rw [he]
    simp [String.append_assoc]
  · refine ⟨"Could not geocode city '", "'", ?_⟩
    unfold geocodeStep
    rw [he]
    rfl

/-- The geocoding endpoint answers 200 with an empty JSON object, so the
city cannot be geocoded. -/
def Uc6 : Upstream :=
  ⟨httpOk (.obj []), fun _ _ => httpOk (.obj []), fun _ => httpOk (.obj []),
   fun _ _ => httpOk (.obj []), fun _ _ => httpOk (.obj []), fun _ => none⟩

/-- Witness for C6: a city with zero geocoding results gets an error that
embeds the city name and only the geocoding endpoint is contacted. -/
theorem C6_geocode_failure_names_city_witness :
    keyMissing (some "key") = false ∧
    ((∃ e, geocodeTry Uc6 "Unknown City Xyz123" = .error e) ∨
      geocodeTry Uc6 "Unknown City Xyz123" = .ok none) ∧
    ∃ pre suf, get_air_quality Uc6 (some "key") "Unknown City Xyz123"
      = (.ok (errObj (pre ++ "Unknown City Xyz123" ++ suf)),
         [Call.geocode "Unknown City Xyz123"]) :=
  ⟨rfl, .inr rfl,
    C6_geocode_failure_names_city Uc6 (some "key") "Unknown City Xyz123" rfl (.inr rfl)⟩

/-- C3: with the key configured, geocoding resolved, and the station search
returning one or more (well-shaped) results, `get_air_quality` takes the
station branch: source "OpenAQ Station Data", `stations_found` equal to the
length of `stations`, every record carrying name, city, country,
coordinates and parameters — and the modeled endpoint is never called. -/
theorem C3_station_branch (U : Upstream) (apiKey : Option String) (city : String)
    (lat lon : JVal) (fs : List (String × JVal)) (sts : List JVal)
    (hk : keyMissing apiKey = false)
    (hgeo : geocodeStep U city = .inr (lat, lon))
    (haq : openaqStep U lat lon = .ok (.obj fs))
    (hres : jlookup fs "results" = some (.list sts))
    (hne : sts ≠ [])
    (hwf : ∀ st ∈ sts, stationWellFormed st = true) :
    ∃ stations,
      get_air_quality U apiKey city
        = (.ok (.obj [("requested_city", .str city), ("source", .str "OpenAQ Station Data"),
            ("stations_found", .num stations.length), ("stations", .list stations)]),
           [Call.geocode city, Call.openaq lat lon]) ∧
      stations.length = sts.length ∧
      ∀ r ∈ stations, ∃ gs, r = .obj gs ∧
        gs.map Prod.fst = ["name", "city", "country", "coordinates", "parameters"] := by
  obtain ⟨l, hl, hlen, hshape⟩ := exceptMapM_stations sts hwf
  have ht : truthy (JVal.list sts) = true := by
    cases sts with
    | nil => exact absurd rfl hne
    | cons a b => rfl
  have hsb : stationBranch (JVal.obj fs) city = .ok (JVal.obj
      [("requested_city", .str city), ("source", .str "OpenAQ Station Data"),
       ("stations_found", .num l.length), ("stations", .list l)]) := by
    unfold stationBranch
    simp only [pySubscriptStr, hres, pyIter, Bind.bind, Except.bind, hl, pure, Except.pure]
  have hsc : stationCheck (JVal.obj fs) city = .ok (some (JVal.obj
      [("requested_city", .str city), ("source", .str "OpenAQ Station Data"),
       ("stations_found", .num l.length), ("stations", .list l)])) := by
    unfold stationCheck
    simp only [pyGet, hres, Option.getD, Bind.bind, Except.bind, ht, if_true, hsb,
      pure, Except.pure]
  refine ⟨l, ?_, hlen, hshape⟩
  unfold get_air_quality
  rw [hk, hgeo]
  dsimp only
  rw [haq]
  dsimp only
  rw [hsc]
  rfl

/-- A well-shaped OpenAQ station record. -/
def c3station : JVal :=
  .obj [("name", .str "Station One"), ("city", .str "Lahore"), ("country", .str "PK"),
    ("coordinates", .obj [("latitude", .num 31), ("longitude", .num 74)]),
    ("parameters", .list [.obj [("parameter", .str "pm25")]])]

/-- One station nearby. -/
def Uc3 : Upstream :=
  mkU weatherBody (.obj [("results", .list [c3station])]) (.obj [])

/-- Witness for C3 at a concrete one-station upstream. -/
theorem C3_station_branch_witness :
    keyMissing (some "key") = false ∧
    geocodeStep Uc3 "Lahore" = .inr (.num 31, .num 74) ∧
    openaqStep Uc3 (.num 31) (.num 74) = .ok (.obj [("results", .list [c3station])]) ∧
    jlookup [("results", .list [c3station])] "results" = some (.list [c3station]) ∧
    [c3station] ≠ ([] : List JVal) ∧
    (∀ st ∈ [c3station], stationWellFormed st = true) ∧
    ∃ stations,
      get_air_quality Uc3 (some "key") "Lahore"
        = (.ok (.obj [("requested_city", .str "Lahore"),
            ("source", .str "OpenAQ Station Data"),
            ("stations_found", .num stations.length), ("stations", .list stations)]),
           [Call.geocode "Lahore", Call.openaq (.num 31) (.num 74)]) ∧
      stations.length = [c3station].length ∧
      ∀ r ∈ stations, ∃ gs, r = .obj gs ∧
        gs.map Prod.fst = ["name", "city", "country", "coordinates", "parameters"] := by
  have hwf : ∀ st ∈ [c3station], stationWellFormed st = true := by
    intro st hst
    rw [List.mem_singleton] at hst
    subst hst
    rfl
  exact ⟨rfl, rfl, rfl, rfl, by simp, hwf,
    C3_station_branch Uc3 (some "key") "Lahore" (.num 31) (.num 74)
      [("results", .list [c3station])] [c3station] rfl rfl rfl rfl (by simp) hwf⟩

/-! ## The modeled-data fallback -/

/-- Shared glue: under a configured key, resolved geocoding and a falsy
`results` field, `get_air_quality` returns whatever the guarded fallback
step produces, having contacted all three endpoints. -/
theorem aq_fallback_route (U : Upstream) (apiKey : Option String) (city : String)
    (lat lon : JVal) (aq_data rv : JVal)
    (hk : keyMissing apiKey = false)
    (hgeo : geocodeStep U city = .inr (lat, lon))
    (haq : openaqStep U lat lon = .ok aq_data)
    (hres : pyGet aq_data "results" .null = .ok rv)
    (hfalsy : truthy rv = false) :
    get_air_quality U apiKey city
      = (.ok (fallbackStep U lat lon city),
         [Call.geocode city, Call.openaq lat lon, Call.modeled lat lon]) := by
  have hsc : stationCheck aq_data city = .ok none := by
    unfold stationCheck
    simp only [hres, Bind.bind, Except.bind, hfalsy, Bool.false_eq_true, if_false,
      pure, Except.pure]
  unfold get_air_quality
  rw [hk, hgeo]
  dsimp only
  rw [haq]
  dsimp only
  rw [hsc]
  rfl

/-- Shared glue: the value the fallback `try` body produces when the
modeled endpoint answers below 400 with JSON `model_data` whose `hourly`
section reads as the dict `hfs`. -/
theorem fallbackStep_eq (U : Upstream) (lat lon : JVal) (city : String)
    (mr : HttpResponse) (model_data : JVal) (hfs : List (String × JVal))
    (hmod : U.modeled lat lon = .ok mr)
    (hst : mr.status < 400)
    (hjson : mr.json = .ok model_data)
    (hhour : pyGet model_data "hourly" (.obj []) = .ok (.obj hfs)) :
    fallbackStep U lat lon city =
      if hfs.isEmpty then errObj ("No air quality data available for " ++ city)
      else .obj [("requested_city", .str city), ("source", .str "Open-Meteo Modeled Data"),
        ("coordinates", .obj [("latitude", lat), ("longitude", lon)]),
        ("measurements", .obj (latestOf hfs))] := by
  have hrfs : raiseForStatus mr = .ok mr := by
    unfold raiseForStatus
    rw [if_neg (by omega)]
  unfold fallbackStep fallbackTry
  simp only [hmod, Bind.bind, Except.bind, hrfs, hjson, hhour, pyItems, pure, Except.pure]
  cases hfs with
  | nil => rfl
  | cons p rest => rfl

/-- C4: with zero stations and modeled data whose `hourly` section is the
dict `hfs` (with distinct keys, as any parsed JSON object has), the tool
returns the modeled result — measurements map each kept key to the LAST
element of its series, non-list or empty series are skipped, the resolved
coordinates are attached — and an empty or absent `hourly` section yields
the not-available error instead. -/
theorem C4_modeled_fallback (U : Upstream) (apiKey : Option String) (city : String)
    (lat lon : JVal) (aq_data rv : JVal) (mr : HttpResponse) (model_data : JVal)
    (hfs : List (String × JVal))
    (hk : keyMissing apiKey = false)
    (hgeo : geocodeStep U city = .inr (lat, lon))
    (haq : openaqStep U lat lon = .ok aq_data)
    (hres : pyGet aq_data "results" .null = .ok rv)
    (hfalsy : truthy rv = false)
    (hmod : U.modeled lat lon = .ok mr)
    (hstat : mr.status < 400)
    (hjson : mr.json = .ok model_data)
    (hhour : pyGet model_data "hourly" (.obj []) = .ok (.obj hfs))
    (hnd : (hfs.map Prod.fst).Nodup) :
    (hfs = [] →
      get_air_quality U apiKey city
        = (.ok (errObj ("No air quality data available for " ++ city)),
           [Call.geocode city, Call.openaq lat lon, Call.modeled lat lon])) ∧
    (hfs ≠ [] →
      get_air_quality U apiKey city
        = (.ok (.obj [("requested_city", .str city),
            ("source", .str "Open-Meteo Modeled Data"),
            ("coordinates", .obj [("latitude", lat), ("longitude", lon)]),
            ("measurements", .obj (latestOf hfs))]),
           [Call.geocode city, Call.openaq lat lon, Call.modeled lat lon])) ∧
    (∀ k vs, jlookup hfs k = some (.list vs) → ∀ hne : vs ≠ [],
        jlookup (latestOf hfs) k = some (vs.getLast hne)) ∧
    (∀ k v, jlookup hfs k = some v → lastItem v = none →
        jlookup (latestOf hfs) k = none) ∧
    (∀ k x, jlookup (latestOf hfs) k = some x →
        ∃ vs, ∃ hne : vs ≠ [], jlookup hfs k = some (.list vs) ∧ x = vs.getLast hne) := by
  have hroute := aq_fallback_route U apiKey city lat lon aq_data rv hk hgeo haq hres hfalsy
  have hfb := fallbackStep_eq U lat lon city mr model_data hfs hmod hstat hjson hhour
  refine ⟨?_, ?_,
    fun k vs h hne => latestOf_lookup_list hfs k vs h hne,
    fun k v h hlv => latestOf_lookup_skip hfs k v hnd h hlv,
    fun k x h => latestOf_lookup_src hfs k x hnd h⟩
  · intro h0
    subst h0
    rw [hroute, hfb]
    rfl
  · intro hne
    rw [hroute, hfb]
    have : hfs.isEmpty = false := by
      cases hfs with
      | nil => exact absurd rfl hne
      | cons p rest => rfl
    rw [this]
    rfl

/-- Zero stations; modeled hourly data with one kept series and one
skipped non-list entry. -/
def Uc4 : Upstream := mkU weatherBody (.obj [("results", .list [])])
  (.obj [("hourly", .obj [("pm10", .list [.num 7, .num 9]), ("o3", .num 3)])])

/-- Witness for C4 under `Uc4`: the kept `pm10` series contributes its
last element, the non-list `o3` entry is skipped. -/
theorem C4_modeled_fallback_witness :
    keyMissing (some "key") = false ∧
    geocodeStep Uc4 "Lahore" = .inr (.num 31, .num 74) ∧
    openaqStep Uc4 (.num 31) (.num 74) = .ok (.obj [("results", .list [])]) ∧
    pyGet (.obj [("results", .list [])]) "results" .null = .ok (.list []) ∧
    truthy (.list []) = false ∧
    Uc4.modeled (.num 31) (.num 74) = .ok ⟨200, "",
      .ok (.obj [("hourly", .obj [("pm10", .list [.num 7, .num 9]), ("o3", .num 3)])])⟩ ∧
    (200 : Nat) < 400 ∧
    ([("pm10", JVal.list [.num 7, .num 9]), ("o3", JVal.num 3)] ≠
      ([] : List (String × JVal))) ∧
    get_air_quality Uc4 (some "key") "Lahore"
      = (.ok (.obj [("requested_city", .str "Lahore"),
          ("source", .str "Open-Meteo Modeled Data"),
          ("coordinates", .obj [("latitude", .num 31), ("longitude", .num 74)]),
          ("measurements", .obj [("pm10", .num 9)])]),
         [Call.geocode "Lahore", Call.openaq (.num 31) (.num 74),
          Call.modeled (.num 31) (.num 74)]) := by
  refine ⟨rfl, rfl, rfl, rfl, rfl, rfl, by decide, by simp, ?_⟩
  have h := C4_modeled_fallback Uc4 (some "key") "Lahore" (.num 31) (.num 74)
    (.obj [("results", .list [])]) (.list []) ⟨200, "",
      .ok (.obj [("hourly", .obj [("pm10", .list [.num 7, .num 9]), ("o3", .num 3)])])⟩
    (.obj [("hourly", .obj [("pm10", .list [.num 7, .num 9]), ("o3", .num 3)])])
    [("pm10", .list [.num 7, .num 9]), ("o3", .num 3)]
    rfl rfl rfl rfl rfl rfl (by decide) rfl rfl (by decide)
  exact h.2.1 (by simp)

/-- Zero stations; modeled hourly data carrying the `time` axis alongside a
pollutant series. -/
def Uc10 : Upstream := mkU weatherBody (.obj [("results", .list [])])
  (.obj [("hourly", .obj [("time", .list [.str "2024-01-01T00:00", .str "2024-01-01T01:00"]),
    ("pm2_5", .list [.num 10, .num 12])])])

/-- C10: the fallback's `measurements` is built from EVERY non-empty
list-valued key of the hourly object, not only the six requested pollutant
series; in particular, when the response carries the hourly `time` axis as
a list, `measurements` holds a `time` entry with the last timestamp. -/
theorem C10_time_axis_included (U : Upstream) (apiKey : Option String) (city : String)
    (lat lon : JVal) (aq_data rv : JVal) (mr : HttpResponse) (model_data : JVal)
    (hfs : List (String × JVal)) (ts : List JVal)
    (hk : keyMissing apiKey = false)
    (hgeo : geocodeStep U city = .inr (lat, lon))
    (haq : openaqStep U lat lon = .ok aq_data)
    (hres : pyGet aq_data "results" .null = .ok rv)
    (hfalsy : truthy rv = false)
    (hmod : U.modeled lat lon = .ok mr)
    (hstat : mr.status < 400)
    (hjson : mr.json = .ok model_data)
    (hhour : pyGet model_data "hourly" (.obj []) = .ok (.obj hfs))
    (hnd : (hfs.map Prod.fst).Nodup)
    (htime : jlookup hfs "time" = some (.list ts)) (hts : ts ≠ []) :
    get_air_quality U apiKey city
      = (.ok (.obj [("requested_city", .str city),
          ("source", .str "Open-Meteo Modeled Data"),
          ("coordinates", .obj [("latitude", lat), ("longitude", lon)]),
          ("measurements", .obj (latestOf hfs))]),
         [Call.geocode city, Call.openaq lat lon, Call.modeled lat lon]) ∧
    jlookup (latestOf hfs) "time" = some (ts.getLast hts) ∧
    (∀ k vs, jlookup hfs k = some (.list vs) → ∀ hne : vs ≠ [],
        jlookup (latestOf hfs) k = some (vs.getLast hne)) := by
  have hne : hfs ≠ [] := by
    intro h0
    rw [h0] at htime
    cases htime
  have hroute := aq_fallback_route U apiKey city lat lon aq_data rv hk hgeo haq hres hfalsy
  have hfb := fallbackStep_eq U lat lon city mr model_data hfs hmod hstat hjson hhour
  refine ⟨?_, latestOf_lookup_list hfs "time" ts htime hts,
    fun k vs h hne2 => latestOf_lookup_list hfs k vs h hne2⟩
  rw [hroute, hfb]
  have : hfs.isEmpty = false := by
    cases hfs with
    | nil => exact absurd rfl hne
    | cons p rest => rfl
  rw [this]
  rfl

/-- Witness for C10 under `Uc10`: `measurements` contains
`time = "2024-01-01T01:00"`, the last timestamp. -/
theorem C10_time_axis_included_witness :
    jlookup [("time", JVal.list [.str "2024-01-01T00:00", .str "2024-01-01T01:00"]),
        ("pm2_5", JVal.list [.num 10, .num 12])] "time"
      = some (.list [.str "2024-01-01T00:00", .str "2024-01-01T01:00"]) ∧
    get_air_quality Uc10 (some "key") "Lahore"
      = (.ok (.obj [("requested_city", .str "Lahore"),
          ("source", .str "Open-Meteo Modeled Data"),
          ("coordinates", .obj [("latitude", .num 31), ("longitude", .num 74)]),
          ("measurements", .obj (latestOf [("time", .list [.str "2024-01-01T00:00",
            .str "2024-01-01T01:00"]), ("pm2_5", .list [.num 10, .num 12])]))]),
         [Call.geocode "Lahore", Call.openaq (.num 31) (.num 74),
          Call.modeled (.num 31) (.num 74)]) ∧
    jlookup (latestOf [("time", JVal.list [.str "2024-01-01T00:00", .str "2024-01-01T01:00"]),
        ("pm2_5", JVal.list [.num 10, .num 12])]) "time"
      = some (.str "2024-01-01T01:00") := by
  have h := C10_time_axis_included Uc10 (some "key") "Lahore" (.num 31) (.num 74)
    (.obj [("results", .list [])]) (.list []) ⟨200, "",
      .ok (.obj [("hourly", .obj [("time", .list [.str "2024-01-01T00:00",
        .str "2024-01-01T01:00"]), ("pm2_5", .list [.num 10, .num 12])])])⟩
    (.obj [("hourly", .obj [("time", .list [.str "2024-01-01T00:00",
      .str "2024-01-01T01:00"]), ("pm2_5", .list [.num 10, .num 12])])])
    [("time", .list [.str "2024-01-01T00:00", .str "2024-01-01T01:00"]),
      ("pm2_5", .list [.num 10, .num 12])]
    [.str "2024-01-01T00:00", .str "2024-01-01T01:00"]
    rfl rfl rfl rfl rfl rfl (by decide) rfl rfl (by decide) rfl (by simp)
  exact ⟨rfl, h.1, h.2.1⟩

/-! ## Weather-tool claims -/

theorem jlookup_mem (fs : List (String × JVal)) (k : String) (v : JVal)
    (h : jlookup fs k = some v) : (k, v) ∈ fs := by
  induction fs with
  | nil => cases h
  | cons p rest ih =>
    obtain ⟨a, b⟩ := p
    rw [jlookup_cons] at h
    by_cases hak : a = k
    · rw [if_pos hak] at h
      subst hak
      rw [Option.some.inj h]
      exact List.mem_cons_self _ _
    · rw [if_neg hak] at h
      exact List.mem_cons_of_mem _ (ih h)

/-- C7: whenever the upstream forecast responds with a (truthy) `current`
dict, `get_weather` returns exactly the keys temperature, humidity and
wind_speed, each the corresponding `current` entry or the literal "N/A"
when individually missing — a missing field never fails the call — and if
every `current` value is numeric, each returned field is numeric or
"N/A". -/
theorem C7_weather_fields_numeric_or_NA (U : Upstream) (lat lon : JVal)
    (r : HttpResponse) (data : JVal) (cfs : List (String × JVal))
    (hw : U.weather lat lon = .ok r) (hj : r.json = .ok data)
    (hc : pyGet data "current" (.obj []) = .ok (.obj cfs)) (hne : cfs ≠ []) :
    (get_weather U lat lon).1
      = .obj [("temperature", (jlookup cfs "temperature_2m").getD (.str "N/A")),
              ("humidity", (jlookup cfs "relative_humidity_2m").getD (.str "N/A")),
              ("wind_speed", (jlookup cfs "wind_speed_10m").getD (.str "N/A"))] ∧
    ((∀ p ∈ cfs, ∃ n : Int, p.2 = .num n) →
      ∀ k, (∃ n : Int, (jlookup cfs k).getD (.str "N/A") = .num n) ∨
        (jlookup cfs k).getD (.str "N/A") = .str "N/A") := by
  constructor
  · have ht : truthy (JVal.obj cfs) = true := by
      cases cfs with
      | nil => exact absurd rfl hne
      | cons p rest => rfl
    have hbody : get_weather_try U lat lon
        = .ok (.obj [("temperature", (jlookup cfs "temperature_2m").getD (.str "N/A")),
            ("humidity", (jlookup cfs "relative_humidity_2m").getD (.str "N/A")),
            ("wind_speed", (jlookup cfs "wind_speed_10m").getD (.str "N/A"))]) := by
      unfold get_weather_try
      rw [hw]
      dsimp only [Bind.bind, Except.bind]
      rw [hj]
      dsimp only
      rw [hc]
      dsimp only
      rw [ht]
      simp only [Bool.true_eq_false, if_false, pyGet, pure, Except.pure]
    unfold get_weather
    rw [hbody]
  · intro hnum k
    cases hl : jlookup cfs k with
    | none => exact .inr rfl
    | some v =>
      obtain ⟨n, hn⟩ := hnum (k, v) (jlookup_mem cfs k v hl)
      exact .inl ⟨n, by rw [Option.getD]; exact hn⟩

/-- The forecast answers with a `current` section carrying only the
temperature. -/
def Uc7 : Upstream :=
  mkU (.obj [("current", .obj [("temperature_2m", .num 30)])]) (.obj []) (.obj [])

/-- Witness for C7 under `Uc7`: humidity and wind default to "N/A" while
the present temperature flows through. -/
theorem C7_weather_fields_numeric_or_NA_witness :
    Uc7.weather (.num 31) (.num 74) = .ok ⟨200, "",
      .ok (.obj [("current", .obj [("temperature_2m", .num 30)])])⟩ ∧
    pyGet (.obj [("current", .obj [("temperature_2m", .num 30)])]) "current" (.obj [])
      = .ok (.obj [("temperature_2m", .num 30)]) ∧
    ([("temperature_2m", JVal.num 30)] ≠ ([] : List (String × JVal))) ∧
    (get_weather Uc7 (.num 31) (.num 74)).1
      = .obj [("temperature", .num 30), ("humidity", .str "N/A"),
              ("wind_speed", .str "N/A")] := by
  have h := C7_weather_fields_numeric_or_NA Uc7 (.num 31) (.num 74)
    ⟨200, "", .ok (.obj [("current", .obj [("temperature_2m", .num 30)])])⟩
    (.obj [("current", .obj [("temperature_2m", .num 30)])])
    [("temperature_2m", .num 30)] rfl rfl rfl (by simp)
  exact ⟨rfl, rfl, by simp, h.1⟩

/-- A station record whose `parameters` field is JSON null. -/
def Uc8 : Upstream :=
  mkU weatherBody (.obj [("results", .list [.obj [("parameters", .null)]])]) (.obj [])

/-- C8 (refuted — code bug): the claim says `summarize_environment` never
raises, but it calls `get_air_quality` with no `try/except`, and the
station branch of `get_air_quality` runs outside every `try`: a station
record whose `parameters` field is null makes the list comprehension raise
a `TypeError` that propagates through `summarize_environment`. -/
theorem C8_summarize_exception_escapes :
    (summarize_environment Uc8 (some "key") "Lahore").1
        = .error "TypeError: object is not iterable" ∧
    get_air_quality Uc8 (some "key") "Lahore"
        = (.error "TypeError: object is not iterable",
           [Call.geocode "Lahore", Call.openaq (.num 31) (.num 74)]) :=
  ⟨rfl, rfl⟩

/-! ## The summarizer's default coordinates -/

/-- C9: when the location lookup yields a dict without `lat`/`lon` keys
(e.g. an error object), the summarizer neither fails nor skips the weather
lookup: it calls `get_weather` at the default coordinates `(0, 0)` and
interpolates that result into the summary. -/
theorem C9_location_error_defaults_to_zero (U : Upstream) (apiKey : Option String)
    (city : String) (lfs : List (String × JVal))
    (hl : (get_location U).1 = .obj lfs)
    (hlat : jlookup lfs "lat" = none) (hlon : jlookup lfs "lon" = none) :
    (summarize_environment U apiKey city).2
      = Call.ipapi :: Call.weather (.num 0) (.num 0) :: (get_air_quality U apiKey city).2 ∧
    ∃ wfs, (get_weather U (.num 0) (.num 0)).1 = .obj wfs ∧
      ∀ afs, (get_air_quality U apiKey city).1 = .ok (.obj afs) →
        (summarize_environment U apiKey city).1
          = .ok (.obj [("summary", .str (mkSummary city
              ((jlookup wfs "temperature").getD (.str "N/A"))
              ((jlookup wfs "wind_speed").getD (.str "N/A"))
              ((jlookup afs "nearest_city").getD (.str "N/A"))))]) := by
  obtain ⟨wfs, hw⟩ := get_weather_obj U (.num 0) (.num 0)
  have hloc : get_location U = (JVal.obj lfs, [Call.ipapi]) :=
    Prod.ext_iff.mpr ⟨hl, get_location_trace U⟩
  have hweather : get_weather U (.num 0) (.num 0)
      = (JVal.obj wfs, [Call.weather (.num 0) (.num 0)]) :=
    Prod.ext_iff.mpr ⟨hw, get_weather_trace U _ _⟩
  constructor
  · unfold summarize_environment
    rw [hloc]
    dsimp only [pyGet]
    rw [hlat, hlon]
    simp only [Option.getD_none]
    rw [hweather]
    dsimp only
    cases hq : (get_air_quality U apiKey city).1 with
    | error e =>
      cases hq2 : get_air_quality U apiKey city with
      | mk ae tr =>
        rw [hq2] at hq
        dsimp only at hq
        subst hq
        rfl
    | ok air =>
      obtain ⟨afs, rfl, hnn⟩ := get_air_quality_no_nearest_city U apiKey city air hq
      cases hq2 : get_air_quality U apiKey city with
      | mk ae tr =>
        rw [hq2] at hq
        dsimp only at hq
        subst hq
        rfl
  · refine ⟨wfs, hw, ?_⟩
    intro afs ha
    obtain ⟨lfs2, wfs2, hl2, hw2, hs⟩ := summarize_of_air_ok U apiKey city afs ha
    rw [hl] at hl2
    have hfs2 : lfs = lfs2 := JVal.obj.inj hl2
    subst hfs2
    rw [hlat, hlon] at hw2 hs
    simp only [Option.getD_none] at hw2 hs
    rw [hw] at hw2
    have hwfs2 : wfs = wfs2 := JVal.obj.inj hw2
    subst hwfs2
    rw [hs]

/-- The IP-geolocation call raises; everything else resolves. -/
def Uc9 : Upstream :=
  ⟨.error "boom", fun _ _ => httpOk weatherBody, fun _ => httpOk geoBody,
   fun _ _ => httpOk (.obj [("results", .list [])]),
   fun _ _ => httpOk (.obj [("hourly", .obj [("pm2_5", .list [.num 1])])]),
   fun _ => none⟩

/-- Witness for C9 under `Uc9`: the location error object has no lat/lon,
the weather call happens at `(0, 0)` and its values reach the summary. -/
theorem C9_location_error_defaults_to_zero_witness :
    (get_location Uc9).1 = .obj [("error", .str "boom")] ∧
    jlookup [("error", JVal.str "boom")] "lat" = none ∧
    jlookup [("error", JVal.str "boom")] "lon" = none ∧
    ((summarize_environment Uc9 (some "key") "Lahore").2
        = Call.ipapi :: Call.weather (.num 0) (.num 0) ::
            (get_air_quality Uc9 (some "key") "Lahore").2 ∧
      ∃ wfs, (get_weather Uc9 (.num 0) (.num 0)).1 = .obj wfs ∧
        ∀ afs, (get_air_quality Uc9 (some "key") "Lahore").1 = .ok (.obj afs) →
          (summarize_environment Uc9 (some "key") "Lahore").1
            = .ok (.obj [("summary", .str (mkSummary "Lahore"
                ((jlookup wfs "temperature").getD (.str "N/A"))
                ((jlookup wfs "wind_speed").getD (.str "N/A"))
                ((jlookup afs "nearest_city").getD (.str "N/A"))))])) :=
  ⟨rfl, rfl, rfl,
    C9_location_error_defaults_to_zero Uc9 (some "key") "Lahore"
      [("error", .str "boom")] rfl rfl rfl⟩
